import Mathlib

/-!
Shallow embedding of the slot capacity / booking engine and the order state
machine of the tnt-backend repository, together with theorems settling the
frozen claims about it.

Source files embedded:
- app/modules/slots/model.py   (Slot, SlotStatus)
- app/modules/slots/service.py (book_slot, per-slot lock protocol)
- app/core/load_insights.py    (get_load_label, is_express_pickup_eligible)
- app/modules/orders/model.py  (Order, OrderStatus)
- app/modules/orders/service.py (create_order, update_order_status)
- app/modules/orders/qr_service.py (generate_qr_code, confirm_pickup)
- app/modules/orders/router.py (place_order, confirm/complete/cancel routes)

Modelling conventions:
- Database integer columns are ℕ / ℤ (no overflow is at stake here).
- The SQLAlchemy session is modelled by explicit state records; a mutation
  becomes visible only when the request handler reaches its commit, so a
  handler that raises before committing leaves the committed state unchanged.
- The redis per-slot lock is a Boolean in the slot state.
- Python float arithmetic is modelled exactly where its rounding is
  observable: the expression int(max_orders * 0.7) of book_slot is embedded
  as the IEEE-754 binary64 product rounded to nearest, ties to even (see
  pyIntMul07 below).  The float comparisons of load_insights are modelled
  as exact rational comparisons (their thresholds 0.5 and 0.8 are only
  distinguishable from the rational reading for denominators beyond 2^51,
  far outside any slot capacity the application can hold).
-/

namespace TNT

/-- Slot status enum, app/modules/slots/model.py. -/
inductive SlotStatus
  | AVAILABLE
  | LIMITED
  | FULL
  deriving DecidableEq, Repr

/-- A slot row: vendor reference, capacity, occupancy and status.
The id and the start/end timestamps are not relevant to any claim and are
kept out of the record; the state below holds the row a given slot_id
resolves to. -/
structure Slot where
  vendor_id : ℕ
  max_orders : ℕ
  current_orders : ℕ
  status : SlotStatus
  deriving DecidableEq, Repr

/-- FastAPI HTTPException: a status code and a detail message. -/
structure HTTPException where
  status_code : ℕ
  detail : String
  deriving DecidableEq, Repr

instance {ε α : Type} [DecidableEq ε] [DecidableEq α] : DecidableEq (Except ε α)
  | Except.error e, Except.error f =>
    if h : e = f then Decidable.isTrue (h ▸ rfl)
    else Decidable.isFalse fun hh => h (Except.error.inj hh)
  | Except.error _, Except.ok _ => Decidable.isFalse fun hh => Except.noConfusion hh
  | Except.ok _, Except.error _ => Decidable.isFalse fun hh => Except.noConfusion hh
  | Except.ok x, Except.ok y =>
    if h : x = y then Decidable.isTrue (h ▸ rfl)
    else Decidable.isFalse fun hh => h (Except.ok.inj hh)

/-- The IEEE-754 binary64 value nearest to 0.7 is c07num / 2^53. -/
def c07num : ℕ := 6305039478318694

/-- Number of binary digits of N (correct for N < 2^200, far beyond the
inputs the embedding is used on). -/
def bitLen (N : ℕ) : ℕ :=
  ((List.range 200).filter fun k => 2 ^ k ≤ N).length

/-- Round N to the nearest multiple of 2 ^ (bitLen N - 53), ties to the even
multiple: this is rounding to 53 significant bits, the binary64 significand
width. -/
def rne53 (N : ℕ) : ℕ :=
  let s := bitLen N - 53
  let q := N / 2 ^ s
  let r := N % 2 ^ s
  if r * 2 < 2 ^ s then q * 2 ^ s
  else if 2 ^ s < r * 2 then (q + 1) * 2 ^ s
  else (q + q % 2) * 2 ^ s

/-- Python int(n * 0.7): the exact product of n with the binary64 value of
0.7 is rounded to 53 significant bits (round to nearest, ties to even), and
int truncates the result toward zero.  Examples: pyIntMul07 10 = 7,
pyIntMul07 3 = 2, and pyIntMul07 90 = 62 because 90 * 0.7 rounds to
62.99999999999999. -/
def pyIntMul07 (n : ℕ) : ℕ :=
  rne53 (n * c07num) / 2 ^ 53


/-- State seen by book_slot for a fixed slot_id: whether the redis lock
slot_lock:slot_id is currently held by another caller, and the committed
slot row the id resolves to (none when the slot does not exist). -/
structure SlotState where
  lockHeld : Bool
  slot : Option Slot
  deriving DecidableEq, Repr

/-- book_slot, app/modules/slots/service.py lines 10-52.
Acquire the per-slot lock (failure: 429); inside try: load the row (404 if
absent); if current_orders >= max_orders set status FULL, commit and raise
400 "Slot full"; else increment current_orders, set status FULL when
current_orders >= max_orders, else LIMITED when
current_orders >= int(max_orders * 0.7) (no branch writes AVAILABLE), and
commit; the finally block releases the lock on every path that acquired
it. -/
def book_slot (σ : SlotState) : Except HTTPException Slot × SlotState :=
  if σ.lockHeld then
    (Except.error ⟨429, "Slot is being booked, try again"⟩, σ)
  else
    match σ.slot with
    | none => (Except.error ⟨404, "Slot not found"⟩, { σ with lockHeld := false })
    | some s =>
      if s.max_orders ≤ s.current_orders then
        (Except.error ⟨400, "Slot full"⟩,
          { lockHeld := false, slot := some { s with status := SlotStatus.FULL } })
      else
        let s1 : Slot := { s with current_orders := s.current_orders + 1 }
        let s2 : Slot := { s1 with status :=
          if s1.max_orders ≤ s1.current_orders then SlotStatus.FULL
          else if (pyIntMul07 s1.max_orders ≤ s1.current_orders) then SlotStatus.LIMITED
          else s1.status }
        (Except.ok s2, { lockHeld := false, slot := some s2 })

/-- n successive book_slot calls against the same slot, each seeing the
state the previous call left behind. -/
def bookSeq : ℕ → SlotState → SlotState
  | 0, σ => σ
  | n + 1, σ => bookSeq n (book_slot σ).2

/-- The status book_slot persists, as a function of the updated counters:
FULL at capacity, LIMITED from the int(max_orders * 0.7) threshold up, and
AVAILABLE below it (book_slot leaves the stored status alone below the
threshold, so this is the persisted status whenever the stored status
already agreed with this rule before the call). -/
def derivedStatus (current max : ℕ) : SlotStatus :=
  if max ≤ current then SlotStatus.FULL
  else if (pyIntMul07 max ≤ current) then SlotStatus.LIMITED
  else SlotStatus.AVAILABLE

/-- The status derivation exactly as the spec words it, for comparison with
the code: FULL iff current ≥ max, LIMITED iff 0.7 × max ≤ current < max
(0.7 × max ≤ current is the exact rational inequality 7 max ≤ 10 current),
else AVAILABLE. -/
def statusPerSpec (current max : ℕ) : SlotStatus :=
  if max ≤ current then SlotStatus.FULL
  else if 7 * max ≤ 10 * current then SlotStatus.LIMITED
  else SlotStatus.AVAILABLE

/-! Congestion / load insight, app/core/load_insights.py.
The module constants LOW_LOAD_MAX_UTILIZATION = 0.5 and
MEDIUM_LOAD_MAX_UTILIZATION = 0.8 appear below as the rationals 1/2 and
4/5; current_orders / max_orders is modelled as exact rational division. -/

/-- Load label enum values returned by get_load_label. -/
inductive LoadLabel
  | LOW
  | MEDIUM
  | HIGH
  deriving DecidableEq, Repr

/-- LOW_LOAD_MAX_UTILIZATION = 0.5. -/
def LOW_LOAD_MAX_UTILIZATION : ℚ := 1 / 2

/-- MEDIUM_LOAD_MAX_UTILIZATION = 0.8. -/
def MEDIUM_LOAD_MAX_UTILIZATION : ℚ := 4 / 5

/-- MIN_EXPRESS_REMAINING_ORDERS = 2. -/
def MIN_EXPRESS_REMAINING_ORDERS : ℤ := 2

/-- get_load_label, app/core/load_insights.py lines 6-15. -/
def get_load_label (current_orders max_orders : ℤ) : LoadLabel :=
  if max_orders ≤ 0 then LoadLabel.LOW
  else
    let utilization : ℚ := (current_orders : ℚ) / (max_orders : ℚ)
    if utilization < LOW_LOAD_MAX_UTILIZATION then LoadLabel.LOW
    else if utilization < MEDIUM_LOAD_MAX_UTILIZATION then LoadLabel.MEDIUM
    else LoadLabel.HIGH

/-- is_express_pickup_eligible, app/core/load_insights.py lines 18-26. -/
def is_express_pickup_eligible (current_orders max_orders : ℤ) : Bool :=
  if max_orders ≤ 0 then false
  else
    let remaining_orders := max_orders - current_orders
    if remaining_orders < MIN_EXPRESS_REMAINING_ORDERS then false
    else
      decide (get_load_label current_orders max_orders = LoadLabel.LOW ∨
        get_load_label current_orders max_orders = LoadLabel.MEDIUM)

/-! Order data model, app/modules/orders/model.py. -/

/-- Order status enum. -/
inductive OrderStatus
  | PENDING
  | CONFIRMED
  | READY_FOR_PICKUP
  | COMPLETED
  | CANCELLED
  deriving DecidableEq, Repr

/-- An order row.  created_at and pickup_confirmed_at are wall-clock
timestamps with no bearing on any claim and are left out. -/
structure Order where
  id : ℕ
  user_id : ℕ
  slot_id : ℕ
  vendor_id : ℕ
  status : OrderStatus
  total_amount : ℤ
  qr_code : Option String
  pickup_confirmed_by : Option ℕ
  deriving DecidableEq, Repr

/-- One OrderHistory row, app/modules/orders/history_model.py (changed_at
timestamp omitted). -/
structure OrderHistoryRow where
  order_id : ℕ
  status : OrderStatus
  deriving DecidableEq, Repr

/-- An error escaping a request handler: either a FastAPI HTTPException or
the unhandled exception raised by the reward-accrual side effect. -/
inductive PyError
  | http (e : HTTPException)
  | rewardsExn
  deriving DecidableEq, Repr

/-- update_order_status, app/modules/orders/service.py lines 30-75.
Student rule block, vendor rule block, then the mutation: set the new
status, add one history row, and when the new status is COMPLETED run
process_order_completion_rewards with no exception handling around it.
The parameter rewardsRaise says whether that rewards call raises (it is
modelled as raising before any of its own commits); when it does, the
exception propagates and nothing is handed back to the caller, so nothing
reaches the caller commit.  On success the result carries the updated
order together with the history rows added to the session. -/
def update_order_status (order : Order) (new_status : OrderStatus)
    (actor_role : String) (rewardsRaise : Bool) :
    Except PyError (Order × List OrderHistoryRow) :=
  if actor_role = "student" ∧ new_status ≠ OrderStatus.CANCELLED then
    Except.error (PyError.http ⟨403, "Students can only cancel orders"⟩)
  else if actor_role = "student" ∧ order.status ≠ OrderStatus.PENDING then
    Except.error (PyError.http ⟨400, "Order cannot be cancelled"⟩)
  else if actor_role = "vendor" ∧ new_status = OrderStatus.CONFIRMED ∧
      order.status ≠ OrderStatus.PENDING then
    Except.error (PyError.http ⟨400, "Only pending orders can be confirmed"⟩)
  else if actor_role = "vendor" ∧ new_status = OrderStatus.COMPLETED ∧
      order.status ≠ OrderStatus.CONFIRMED then
    Except.error (PyError.http ⟨400, "Order must be confirmed before completion"⟩)
  else
    if new_status = OrderStatus.COMPLETED ∧ rewardsRaise then
      Except.error PyError.rewardsExn
    else
      Except.ok ({ order with status := new_status },
        [⟨order.id, new_status⟩])

/-- Committed database state seen by the order transition routes, for a
fixed order: the order row, its append-only history, and the slot row the
order references (carried to state frame facts about it).  The routes
query the order by id and by ownership; the lookups that can only fail
with 404 for a missing row are kept, the user lookup is assumed to
succeed. -/
structure OrderDB where
  order : Order
  history : List OrderHistoryRow
  slot : Slot
  deriving DecidableEq, Repr

/-- The db.commit() a route performs after update_order_status returns:
the mutated order and the session-pending history rows become committed
state. -/
def commitUpdate (db : OrderDB) (res : Order × List OrderHistoryRow) : OrderDB :=
  { db with order := res.1, history := db.history ++ res.2 }

/-- confirm_order route, app/modules/orders/router.py lines 166-189:
update_order_status(order, CONFIRMED, "vendor"), then commit.  When
update_order_status raises, the commit is never reached and the committed
state is unchanged. -/
def confirm_order (db : OrderDB) (rewardsRaise : Bool) :
    Except PyError String × OrderDB :=
  match update_order_status db.order OrderStatus.CONFIRMED "vendor" rewardsRaise with
  | Except.error e => (Except.error e, db)
  | Except.ok r => (Except.ok "Order confirmed", commitUpdate db r)

/-- complete_order route, app/modules/orders/router.py lines 193-216:
update_order_status(order, COMPLETED, "vendor"), then commit. -/
def complete_order (db : OrderDB) (rewardsRaise : Bool) :
    Except PyError String × OrderDB :=
  match update_order_status db.order OrderStatus.COMPLETED "vendor" rewardsRaise with
  | Except.error e => (Except.error e, db)
  | Except.ok r => (Except.ok "Order completed", commitUpdate db r)

/-- cancel_order route, app/modules/orders/router.py lines 220-243: 404
unless the order belongs to the requesting user, then
update_order_status(order, CANCELLED, "student") and commit. -/
def cancel_order (db : OrderDB) (requester_user_id : ℕ) (rewardsRaise : Bool) :
    Except PyError String × OrderDB :=
  if db.order.user_id ≠ requester_user_id then
    (Except.error (PyError.http ⟨404, "Order not found"⟩), db)
  else
    match update_order_status db.order OrderStatus.CANCELLED "student" rewardsRaise with
    | Except.error e => (Except.error e, db)
    | Except.ok r => (Except.ok "Order cancelled", commitUpdate db r)

/-- generate_qr_code, app/modules/orders/qr_service.py lines 8-23.  A fresh
uuid string is drawn first (parameter freshUuid); then: ValueError if the
order id is unknown; ValueError "Order is not ready for pickup" unless the
status is READY_FOR_PICKUP; the existing qr_code is returned unchanged when
present; otherwise the fresh code is stored and committed. -/
def generate_qr_code (db : OrderDB) (order_id : ℕ) (freshUuid : String) :
    Except String String × OrderDB :=
  if db.order.id ≠ order_id then
    (Except.error "Order not found", db)
  else if db.order.status ≠ OrderStatus.READY_FOR_PICKUP then
    (Except.error "Order is not ready for pickup", db)
  else
    match db.order.qr_code with
    | some existing => (Except.ok existing, db)
    | none =>
      (Except.ok freshUuid,
        { db with order := { db.order with qr_code := some freshUuid } })

/-- confirm_pickup, app/modules/orders/qr_service.py lines 26-42.  Looks
the order up by qr_code (the first test below), returns False unless the
requesting vendor owns it and it is READY_FOR_PICKUP, then sets status
COMPLETED with the pickup metadata and commits.  No OrderHistory row is
added on this path. -/
def confirm_pickup (db : OrderDB) (qr : String) (vendor_id : ℕ) :
    Bool × OrderDB :=
  if db.order.qr_code ≠ some qr then (false, db)
  else if db.order.vendor_id ≠ vendor_id then (false, db)
  else if db.order.status ≠ OrderStatus.READY_FOR_PICKUP then (false, db)
  else
    (true,
      { db with order := { db.order with
          status := OrderStatus.COMPLETED,
          pickup_confirmed_by := some vendor_id } })

/-- Committed state seen by the place_order route: the slot row the path
parameter resolves to, and the order row the request creates (none before
the request). -/
structure PlaceOrderDB where
  slot : Option Slot
  created : Option Order
  deriving DecidableEq, Repr

/-- The JSON body a successful place_order returns: order id, status and
total, plus the pickup_load_label and express_pickup_eligible fields
computed at router.py lines 128-129 from the slot counters (the
eta_minutes field is a constant-plus-zero read of a column the Slot model
does not even define and is left out). -/
structure PlaceOrderResponse where
  order_id : ℕ
  status : OrderStatus
  total_amount : ℤ
  pickup_load_label : LoadLabel
  express_pickup_eligible : Bool
  deriving DecidableEq, Repr

/-- place_order route, app/modules/orders/router.py lines 33-130.
After the user and slot lookups: the university-policy gate (lines 51-74,
read-only checks abstracted as policyRejects), the idempotency-key check
(lines 77-81, abstracted as idemDuplicate), the cart validation (lines
84-95, read-only; assumed to pass for a well-formed request), then
create_order (service.py lines 10-27: commits a PENDING order with
vendor_id taken from the slot and no capacity change), add_items_to_order
(returns items_total), total_amount assignment and the final commit,
before the response derives pickup_load_label and
express_pickup_eligible from slot.current_orders and slot.max_orders
(lines 128-129).  Those reads are the only slot-counter accesses on the
route: no statement writes slot.current_orders, slot.max_orders or
slot.status, and book_slot is never called. -/
def place_order (db : PlaceOrderDB) (user_id slot_id new_order_id : ℕ)
    (policyRejects idemDuplicate : Bool) (items_total : ℤ) :
    Except HTTPException PlaceOrderResponse × PlaceOrderDB :=
  match db.slot with
  | none => (Except.error ⟨404, "Slot not found"⟩, db)
  | some slot =>
    if policyRejects then
      (Except.error ⟨400, "Orders are allowed only during university break window"⟩, db)
    else if idemDuplicate then
      (Except.error ⟨409, "Duplicate request"⟩, db)
    else
      let order : Order :=
        { id := new_order_id, user_id := user_id, slot_id := slot_id,
          vendor_id := slot.vendor_id, status := OrderStatus.PENDING,
          total_amount := items_total, qr_code := none,
          pickup_confirmed_by := none }
      (Except.ok ⟨order.id, order.status, items_total,
          get_load_label (slot.current_orders : ℤ) (slot.max_orders : ℤ),
          is_express_pickup_eligible (slot.current_orders : ℤ) (slot.max_orders : ℤ)⟩,
        { db with created := some order })

/-! Concrete states used by counterexamples and witnesses. -/

/-- A slot row with spare capacity: vendor 4, capacity 10, occupancy 3. -/
def exSlot : Slot := ⟨4, 10, 3, SlotStatus.AVAILABLE⟩

/-- An order of vendor 4 awaiting pickup, with a QR code issued. -/
def exOrderReady : Order :=
  ⟨1, 2, 5, 4, OrderStatus.READY_FOR_PICKUP, 100, some "qr-1", none⟩

/-- Committed state around exOrderReady, with one earlier history row. -/
def exDbReady : OrderDB := ⟨exOrderReady, [⟨1, OrderStatus.PENDING⟩], exSlot⟩

/-- A confirmed order of vendor 4. -/
def exOrderConfirmed : Order := ⟨1, 2, 5, 4, OrderStatus.CONFIRMED, 100, none, none⟩

/-- Committed state around exOrderConfirmed. -/
def exDbConfirmed : OrderDB := ⟨exOrderConfirmed, [⟨1, OrderStatus.PENDING⟩], exSlot⟩

/-- A pending order of user 2 at vendor 4. -/
def exOrderPending : Order := ⟨1, 2, 5, 4, OrderStatus.PENDING, 100, none, none⟩

/-- Committed state around exOrderPending. -/
def exDbPending : OrderDB := ⟨exOrderPending, [], exSlot⟩

/-! Theorems. -/

/-- Sanity anchor for the float model: the values Python produces for
int(n * 0.7) at n = 0, 3, 10 and 90 (the last being the first point where
the binary64 product drops below the exact product 63). -/
theorem pyIntMul07_values :
    pyIntMul07 0 = 0 ∧ pyIntMul07 3 = 2 ∧ pyIntMul07 10 = 7 ∧
      pyIntMul07 90 = 62 := by decide

/-- One book_slot call preserves the occupancy bound of the slot row. -/
theorem book_slot_preserves_bound (σ : SlotState)
    (h : ∀ t, σ.slot = some t → t.current_orders ≤ t.max_orders) :
    ∀ t, (book_slot σ).2.slot = some t → t.current_orders ≤ t.max_orders := by
  rintro t ht
  rcases σ with ⟨lock, oslot⟩
  cases lock with
  | true =>
    simp only [book_slot, if_pos rfl] at ht
    exact h t ht
  | false =>
    cases oslot with
    | none => simp [book_slot] at ht
    | some s =>
      have hs := h s rfl
      by_cases hfull : s.max_orders ≤ s.current_orders
      · simp [book_slot, hfull] at ht
        rw [← ht]
        exact hs
      · simp [book_slot, hfull] at ht
        rw [← ht]
        show s.current_orders + 1 ≤ s.max_orders
        omega

/-- Any number of book_slot calls preserves the occupancy bound. -/
theorem bookSeq_preserves_bound (n : ℕ) (σ : SlotState)
    (h : ∀ t, σ.slot = some t → t.current_orders ≤ t.max_orders) :
    ∀ t, (bookSeq n σ).slot = some t → t.current_orders ≤ t.max_orders := by
  induction n generalizing σ with
  | zero => simpa [bookSeq] using h
  | succ n ih =>
    intro t ht
    rw [bookSeq] at ht
    exact ih _ (book_slot_preserves_bound σ h) t ht

/-- C1: starting from a slot state with current_orders ≤ max_orders, no
sequence of book_slot calls ever drives current_orders above max_orders;
a call finding current_orders ≥ max_orders (the lock being free, so that
the call reaches the capacity check) fails with 400 "Slot full" and leaves
current_orders unchanged, only forcing status to FULL; in particular with
max_orders = 0 every attempt fails with "Slot full". -/
theorem C1_no_oversell (σ : SlotState) (s : Slot)
    (hs : σ.slot = some s) (hinv : s.current_orders ≤ s.max_orders) :
    (∀ n t, (bookSeq n σ).slot = some t → t.current_orders ≤ t.max_orders) ∧
    (σ.lockHeld = false → s.max_orders ≤ s.current_orders →
      (book_slot σ).1 = Except.error ⟨400, "Slot full"⟩ ∧
      (book_slot σ).2.slot = some { s with status := SlotStatus.FULL }) ∧
    (σ.lockHeld = false → s.max_orders = 0 →
      (book_slot σ).1 = Except.error ⟨400, "Slot full"⟩) := by
  have hbase : ∀ t, σ.slot = some t → t.current_orders ≤ t.max_orders := by
    intro t ht
    rw [hs] at ht
    injection ht with ht
    rw [← ht]
    exact hinv
  refine ⟨fun n => bookSeq_preserves_bound n σ hbase, fun hl hfull => ?_, fun hl h0 => ?_⟩
  · constructor <;> simp [book_slot, hl, hs, hfull]
  · have hfull : s.max_orders ≤ s.current_orders := by omega
    simp [book_slot, hl, hs, hfull]

/-- Witness for C1 at a concrete zero-capacity slot. -/
theorem C1_no_oversell_witness :
    (book_slot ⟨false, some ⟨1, 0, 0, SlotStatus.AVAILABLE⟩⟩).1 =
      Except.error ⟨400, "Slot full"⟩ :=
  (C1_no_oversell ⟨false, some ⟨1, 0, 0, SlotStatus.AVAILABLE⟩⟩
    ⟨1, 0, 0, SlotStatus.AVAILABLE⟩ rfl (by decide)).2.2 rfl rfl

/-- C2 counterexample: booking the slot (capacity 3, occupancy 1) persists
occupancy 2 with status LIMITED, because 2 ≥ int(3 * 0.7) = 2; the claimed
rule (LIMITED iff 0.7 × max ≤ current, i.e. 2.1 ≤ 2) yields AVAILABLE at
the same counters, so the persisted status is not the claimed function of
(current, max). -/
theorem C2_counterexample :
    (book_slot ⟨false, some ⟨1, 3, 1, SlotStatus.AVAILABLE⟩⟩).2.slot =
      some ⟨1, 3, 2, SlotStatus.LIMITED⟩ ∧
    statusPerSpec 2 3 = SlotStatus.AVAILABLE ∧
    statusPerSpec 2 3 ≠ SlotStatus.LIMITED := by decide

/-- C2 (amended): for a slot whose stored status already agrees with the
code's derivation rule, the status book_slot persists is derivedStatus of
the persisted counters: FULL iff current ≥ max, LIMITED iff
int(max * 0.7) ≤ current < max (the binary64 floor threshold, not the
exact 0.7 × max of the claim), else the AVAILABLE it already had — the
success path never writes AVAILABLE, it leaves the stored status alone
below the LIMITED threshold. -/
theorem C2_amended_status (σ : SlotState) (s : Slot)
    (hs : σ.slot = some s) (hl : σ.lockHeld = false)
    (hst : s.status = derivedStatus s.current_orders s.max_orders) :
    ∀ t, (book_slot σ).2.slot = some t →
      t.status = derivedStatus t.current_orders t.max_orders := by
  intro t ht
  by_cases hfull : s.max_orders ≤ s.current_orders
  · simp [book_slot, hl, hs, hfull] at ht
    rw [← ht]
    simp [derivedStatus, hfull]
  · simp [book_slot, hl, hs, hfull] at ht
    rw [← ht]
    show (if s.max_orders ≤ s.current_orders + 1 then SlotStatus.FULL
      else if (pyIntMul07 s.max_orders ≤ s.current_orders + 1) then SlotStatus.LIMITED
      else s.status) = derivedStatus (s.current_orders + 1) s.max_orders
    by_cases h2 : s.max_orders ≤ s.current_orders + 1
    · simp [derivedStatus, h2]
    · by_cases h3 : pyIntMul07 s.max_orders ≤ s.current_orders + 1
      · simp [derivedStatus, h2, h3]
      · have h4 : ¬ pyIntMul07 s.max_orders ≤ s.current_orders := by omega
        simp [derivedStatus, h2, h3, hst, hfull, h4]

/-- Witness for C2 (amended) at a consistent capacity-10 slot. -/
theorem C2_amended_status_witness :
    (⟨1, 10, 1, SlotStatus.AVAILABLE⟩ : Slot).status = derivedStatus 1 10 :=
  C2_amended_status ⟨false, some ⟨1, 10, 0, SlotStatus.AVAILABLE⟩⟩
    ⟨1, 10, 0, SlotStatus.AVAILABLE⟩ rfl rfl (by decide)
    ⟨1, 10, 1, SlotStatus.AVAILABLE⟩ (by decide)

/-- C7: when the per-slot lock is already held, book_slot fails with
429 "Slot is being booked, try again" leaving the whole state — lock and
slot row — untouched; when the lock is free, it is free again after the
call on every path (success, missing slot, and the capacity failure that
still persists status FULL). -/
theorem C7_lock_protocol (σ : SlotState) :
    (σ.lockHeld = true →
      (book_slot σ).1 = Except.error ⟨429, "Slot is being booked, try again"⟩ ∧
      (book_slot σ).2 = σ) ∧
    (σ.lockHeld = false → (book_slot σ).2.lockHeld = false) ∧
    (σ.lockHeld = false → ∀ s, σ.slot = some s →
      s.max_orders ≤ s.current_orders →
      (book_slot σ).2 = ⟨false, some { s with status := SlotStatus.FULL }⟩) := by
  refine ⟨fun hl => ?_, fun hl => ?_, fun hl s hs hfull => ?_⟩
  · constructor <;> simp [book_slot, hl]
  · rcases hslot : σ.slot with _ | s
    · simp [book_slot, hl, hslot]
    · by_cases hfull : s.max_orders ≤ s.current_orders <;>
        simp [book_slot, hl, hslot, hfull]
  · simp [book_slot, hl, hs, hfull]

/-- Witness for C7 on a held lock. -/
theorem C7_lock_protocol_witness :
    (book_slot ⟨true, some exSlot⟩).1 =
      Except.error ⟨429, "Slot is being booked, try again"⟩ ∧
    (book_slot ⟨true, some exSlot⟩).2 = ⟨true, some exSlot⟩ :=
  (C7_lock_protocol ⟨true, some exSlot⟩).1 rfl

/-- Shared helper: whatever the role and target, a successful
update_order_status call returns the order with exactly the new status and
exactly one pending history row carrying it. -/
theorem update_order_status_ok (o : Order) (ns : OrderStatus) (role : String)
    (r : Bool) (o2 : Order) (h : List OrderHistoryRow)
    (hok : update_order_status o ns role r = Except.ok (o2, h)) :
    o2 = { o with status := ns } ∧ h = [⟨o.id, ns⟩] := by
  unfold update_order_status at hok
  split_ifs at hok
  all_goals simp_all

/-- C4: update_order_status lets a student set CANCELLED exactly from
PENDING (else 400 "Order cannot be cancelled"), a vendor set CONFIRMED
exactly from PENDING (else 400 "Only pending orders can be confirmed") and
COMPLETED exactly from CONFIRMED (else 400 "Order must be confirmed before
completion"); and whenever a transition route gets an error back, the
committed order — its status included — is unchanged, because the raise
happens before any mutation is handed to the commit. -/
theorem C4_transition_rules (o : Order) (r : Bool) :
    (o.status = OrderStatus.PENDING →
      update_order_status o OrderStatus.CANCELLED "student" r =
        Except.ok ({ o with status := OrderStatus.CANCELLED },
          [⟨o.id, OrderStatus.CANCELLED⟩])) ∧
    (o.status ≠ OrderStatus.PENDING →
      update_order_status o OrderStatus.CANCELLED "student" r =
        Except.error (PyError.http ⟨400, "Order cannot be cancelled"⟩)) ∧
    (o.status = OrderStatus.PENDING →
      update_order_status o OrderStatus.CONFIRMED "vendor" r =
        Except.ok ({ o with status := OrderStatus.CONFIRMED },
          [⟨o.id, OrderStatus.CONFIRMED⟩])) ∧
    (o.status ≠ OrderStatus.PENDING →
      update_order_status o OrderStatus.CONFIRMED "vendor" r =
        Except.error (PyError.http ⟨400, "Only pending orders can be confirmed"⟩)) ∧
    (o.status = OrderStatus.CONFIRMED →
      update_order_status o OrderStatus.COMPLETED "vendor" false =
        Except.ok ({ o with status := OrderStatus.COMPLETED },
          [⟨o.id, OrderStatus.COMPLETED⟩])) ∧
    (o.status ≠ OrderStatus.CONFIRMED →
      update_order_status o OrderStatus.COMPLETED "vendor" r =
        Except.error (PyError.http ⟨400, "Order must be confirmed before completion"⟩)) ∧
    (∀ db : OrderDB, ∀ uid e, (cancel_order db uid r).1 = Except.error e →
      (cancel_order db uid r).2 = db) ∧
    (∀ db : OrderDB, ∀ e, (confirm_order db r).1 = Except.error e →
      (confirm_order db r).2 = db) ∧
    (∀ db : OrderDB, ∀ e, (complete_order db r).1 = Except.error e →
      (complete_order db r).2 = db) := by
  have hsv : ("student" : String) ≠ "vendor" := by decide
  have hvs : ("vendor" : String) ≠ "student" := by decide
  refine ⟨fun h => ?_, fun h => ?_, fun h => ?_, fun h => ?_, fun h => ?_,
    fun h => ?_, fun db uid e he => ?_, fun db e he => ?_, fun db e he => ?_⟩
  · simp [update_order_status, h]
  · simp [update_order_status, h]
  · simp [update_order_status, h, hvs]
  · simp [update_order_status, h, hvs]
  · simp [update_order_status, h, hvs]
  · simp [update_order_status, h, hvs]
  · by_cases hid : db.order.user_id ≠ uid
    · simp [cancel_order, hid]
    · rcases hu : update_order_status db.order OrderStatus.CANCELLED "student" r with e' | r'
      · simp [cancel_order, hid, hu]
      · simp [cancel_order, hid, hu] at he
  · rcases hu : update_order_status db.order OrderStatus.CONFIRMED "vendor" r with e' | r'
    · simp [confirm_order, hu]
    · simp [confirm_order, hu] at he
  · rcases hu : update_order_status db.order OrderStatus.COMPLETED "vendor" r with e' | r'
    · simp [complete_order, hu]
    · simp [complete_order, hu] at he

/-- Witness for C4: a pending order is cancelled by its student owner. -/
theorem C4_transition_rules_witness :
    update_order_status exOrderPending OrderStatus.CANCELLED "student" false =
      Except.ok ({ exOrderPending with status := OrderStatus.CANCELLED },
        [⟨exOrderPending.id, OrderStatus.CANCELLED⟩]) :=
  (C4_transition_rules exOrderPending false).1 rfl

/-- C5 counterexample: confirm_pickup moves the order READY_FOR_PICKUP →
COMPLETED and commits, yet appends no OrderHistory row — the history list
is exactly what it was — refuting the claim that every successful
transition, the QR pickup confirmation included, appends one row. -/
theorem C5_counterexample :
    (confirm_pickup exDbReady "qr-1" 4).1 = true ∧
    (confirm_pickup exDbReady "qr-1" 4).2.order.status = OrderStatus.COMPLETED ∧
    (confirm_pickup exDbReady "qr-1" 4).2.history = exDbReady.history := by decide

/-- C5 (amended): every successful transition through update_order_status
appends exactly one history row recording the new status, handed to the
same commit as the status update; the QR pickup confirmation, however,
sets COMPLETED without appending any history row. -/
theorem C5_amended_history :
    (∀ (o : Order) (ns : OrderStatus) (role : String) (r : Bool)
      (o2 : Order) (h : List OrderHistoryRow),
      update_order_status o ns role r = Except.ok (o2, h) →
      o2.status = ns ∧ h = [⟨o.id, ns⟩]) ∧
    (∀ (db : OrderDB) (qr : String) (vid : ℕ),
      (confirm_pickup db qr vid).1 = true →
      (confirm_pickup db qr vid).2.order.status = OrderStatus.COMPLETED ∧
      (confirm_pickup db qr vid).2.history = db.history) := by
  constructor
  · intro o ns role r o2 h hok
    obtain ⟨ho2, hh⟩ := update_order_status_ok o ns role r o2 h hok
    subst ho2
    exact ⟨rfl, hh⟩
  · intro db qr vid h
    by_cases h1 : db.order.qr_code ≠ some qr
    · simp [confirm_pickup, h1] at h
    · by_cases h2 : db.order.vendor_id ≠ vid
      · simp [confirm_pickup, h1, h2] at h
      · by_cases h3 : db.order.status ≠ OrderStatus.READY_FOR_PICKUP
        · simp [confirm_pickup, h1, h2, h3] at h
        · constructor <;> simp [confirm_pickup, h1, h2, h3]

/-- Witness for C5 (amended) on the concrete QR pickup. -/
theorem C5_amended_history_witness :
    (confirm_pickup exDbReady "qr-1" 4).2.order.status = OrderStatus.COMPLETED ∧
    (confirm_pickup exDbReady "qr-1" 4).2.history = exDbReady.history :=
  (C5_amended_history).2 exDbReady "qr-1" 4 (by decide)

/-- C6 counterexample: completing a confirmed order while the rewards call
raises makes complete_order itself fail — the exception propagates — and
nothing is committed: the order is still CONFIRMED, so the transition to
COMPLETED is lost, refuting the claimed fire-and-forget isolation. -/
theorem C6_counterexample :
    (complete_order exDbConfirmed true).1 = Except.error PyError.rewardsExn ∧
    (complete_order exDbConfirmed true).2 = exDbConfirmed ∧
    (complete_order exDbConfirmed true).2.order.status = OrderStatus.CONFIRMED := by
  decide

/-- C6 (amended): update_order_status invokes
process_order_completion_rewards with no exception handling, so on a
transition to COMPLETED a rewards failure propagates out of the route and
the route's commit is never reached: the committed state is unchanged and
the COMPLETED status is not persisted.  When the rewards call does not
raise, the completion succeeds. -/
theorem C6_amended_rewards (db : OrderDB)
    (h : db.order.status = OrderStatus.CONFIRMED) :
    (complete_order db true).1 = Except.error PyError.rewardsExn ∧
    (complete_order db true).2 = db ∧
    (complete_order db false).1 = Except.ok "Order completed" := by
  have hvs : ("vendor" : String) ≠ "student" := by decide
  refine ⟨?_, ?_, ?_⟩ <;>
    simp [complete_order, update_order_status, h, hvs]

/-- Witness for C6 (amended) on the concrete confirmed order. -/
theorem C6_amended_rewards_witness :
    (complete_order exDbConfirmed true).1 = Except.error PyError.rewardsExn ∧
    (complete_order exDbConfirmed true).2 = exDbConfirmed ∧
    (complete_order exDbConfirmed false).1 = Except.ok "Order completed" :=
  C6_amended_rewards exDbConfirmed rfl

/-- C9: cancel_order leaves the slot row — current_orders, max_orders and
status — exactly as it was, on every path: the cancellation code has no
slot decrement (or any slot access) at all.  On success the order is
CANCELLED and the slot is still untouched. -/
theorem C9_cancel_frame (db : OrderDB) (uid : ℕ) (r : Bool) :
    (cancel_order db uid r).2.slot = db.slot ∧
    ((cancel_order db uid r).1 = Except.ok "Order cancelled" →
      (cancel_order db uid r).2.order.status = OrderStatus.CANCELLED) := by
  by_cases hid : db.order.user_id ≠ uid
  · constructor <;> simp [cancel_order, hid]
  · rcases hu : update_order_status db.order OrderStatus.CANCELLED "student" r
      with e' | ⟨o2, hh⟩
    · constructor <;> simp [cancel_order, hid, hu]
    · obtain ⟨ho2, _⟩ := update_order_status_ok _ _ _ _ _ _ hu
      constructor
      · simp [cancel_order, hid, hu, commitUpdate]
      · intro _
        simp [cancel_order, hid, hu, commitUpdate, ho2]

/-- Witness for C9 on the concrete pending order. -/
theorem C9_cancel_frame_witness :
    (cancel_order exDbPending 2 false).2.slot = exDbPending.slot ∧
    ((cancel_order exDbPending 2 false).1 = Except.ok "Order cancelled" →
      (cancel_order exDbPending 2 false).2.order.status = OrderStatus.CANCELLED) :=
  C9_cancel_frame exDbPending 2 false

/-- C10: generate_qr_code returns the already-stored code unchanged for a
READY_FOR_PICKUP order that has one, stores the freshly drawn code exactly
when a READY_FOR_PICKUP order has none, and raises
"Order is not ready for pickup" for any other status without touching the
order. -/
theorem C10_qr_idempotent (db : OrderDB) (oid : ℕ) (freshUuid c : String) :
    (db.order.id = oid → db.order.status = OrderStatus.READY_FOR_PICKUP →
      db.order.qr_code = some c →
      generate_qr_code db oid freshUuid = (Except.ok c, db)) ∧
    (db.order.id = oid → db.order.status = OrderStatus.READY_FOR_PICKUP →
      db.order.qr_code = none →
      generate_qr_code db oid freshUuid =
        (Except.ok freshUuid,
          { db with order := { db.order with qr_code := some freshUuid } })) ∧
    (db.order.id = oid → db.order.status ≠ OrderStatus.READY_FOR_PICKUP →
      generate_qr_code db oid freshUuid =
        (Except.error "Order is not ready for pickup", db)) := by
  refine ⟨fun h1 h2 h3 => ?_, fun h1 h2 h3 => ?_, fun h1 h2 => ?_⟩
  · simp [generate_qr_code, h1, h2, h3]
  · simp [generate_qr_code, h1, h2, h3]
  · simp [generate_qr_code, h1, h2]

/-- Witness for C10: re-requesting the QR of exOrderReady returns the
stored code and changes nothing. -/
theorem C10_qr_idempotent_witness :
    generate_qr_code exDbReady 1 "fresh-uuid" = (Except.ok "qr-1", exDbReady) :=
  (C10_qr_idempotent exDbReady 1 "fresh-uuid" "qr-1").1 rfl rfl rfl

/-- C3 counterexample: place_order against a slot with max_orders = 0
(whose every booking attempt must fail) succeeds, commits a PENDING order,
and leaves the slot row exactly as it was — current_orders still 0, not
incremented by 1 — refuting the claim that a successful place_order books
the slot's capacity in the same request. -/
theorem C3_counterexample :
    (place_order ⟨some ⟨7, 0, 0, SlotStatus.AVAILABLE⟩, none⟩
        1 5 42 false false 100).1 =
      Except.ok ⟨42, OrderStatus.PENDING, 100, LoadLabel.LOW, false⟩ ∧
    (place_order ⟨some ⟨7, 0, 0, SlotStatus.AVAILABLE⟩, none⟩
        1 5 42 false false 100).2.slot =
      some ⟨7, 0, 0, SlotStatus.AVAILABLE⟩ ∧
    (place_order ⟨some ⟨7, 0, 0, SlotStatus.AVAILABLE⟩, none⟩
        1 5 42 false false 100).2.created =
      some ⟨42, 1, 5, 7, OrderStatus.PENDING, 100, none, none⟩ := by decide

/-- C3 (amended): place_order never writes the slot row — its
current_orders, max_orders and status are unchanged on every path, no
occupancy increment exists on this route, booking happens only in the
separate POST /slots/slot_id/book route — and a successful call commits a
fully formed PENDING order (id, owner, slot, the slot's vendor, items
total) regardless of the slot's remaining capacity, the response reading
the slot counters only to derive its pickup_load_label and
express_pickup_eligible fields from the untouched values. -/
theorem C3_amended_no_booking (db : PlaceOrderDB) (uid sid oid : ℕ)
    (pr idem : Bool) (tot : ℤ) :
    (place_order db uid sid oid pr idem tot).2.slot = db.slot ∧
    (∀ r, (place_order db uid sid oid pr idem tot).1 = Except.ok r →
      ∃ s, db.slot = some s ∧
        r = ⟨oid, OrderStatus.PENDING, tot,
          get_load_label (s.current_orders : ℤ) (s.max_orders : ℤ),
          is_express_pickup_eligible (s.current_orders : ℤ) (s.max_orders : ℤ)⟩ ∧
        (place_order db uid sid oid pr idem tot).2.created =
          some ⟨oid, uid, sid, s.vendor_id, OrderStatus.PENDING, tot, none, none⟩) := by
  rcases hslot : db.slot with _ | s
  · constructor <;> simp [place_order, hslot]
  · rcases pr with _ | _
    · rcases idem with _ | _
      · constructor
        · simp [place_order, hslot]
        · intro r hr
          refine ⟨s, rfl, ?_, ?_⟩
          · simp [place_order, hslot] at hr
            simp [← hr]
          · simp [place_order, hslot]
      · constructor <;> simp [place_order, hslot]
    · constructor <;> simp [place_order, hslot]

/-- Witness for C3 (amended) at the concrete zero-capacity slot. -/
theorem C3_amended_no_booking_witness :
    ∃ s, (⟨some ⟨7, 0, 0, SlotStatus.AVAILABLE⟩, none⟩ : PlaceOrderDB).slot = some s ∧
      (⟨42, OrderStatus.PENDING, 100, LoadLabel.LOW, false⟩ : PlaceOrderResponse) =
        ⟨42, OrderStatus.PENDING, 100,
          get_load_label (s.current_orders : ℤ) (s.max_orders : ℤ),
          is_express_pickup_eligible (s.current_orders : ℤ) (s.max_orders : ℤ)⟩ ∧
      (place_order ⟨some ⟨7, 0, 0, SlotStatus.AVAILABLE⟩, none⟩
          1 5 42 false false 100).2.created =
        some ⟨42, 1, 5, s.vendor_id, OrderStatus.PENDING, 100, none, none⟩ :=
  (C3_amended_no_booking ⟨some ⟨7, 0, 0, SlotStatus.AVAILABLE⟩, none⟩
    1 5 42 false false 100).2 ⟨42, OrderStatus.PENDING, 100, LoadLabel.LOW, false⟩
    (by decide)

/-- For a positive denominator, the utilization comparison against 0.5 is
the integer comparison 2 current < max. -/
theorem div_lt_half_iff {c m : ℤ} (hm : 0 < m) :
    ((c : ℚ) / (m : ℚ) < 1 / 2) ↔ 2 * c < m := by
  have hmQ : (0 : ℚ) < (m : ℚ) := by exact_mod_cast hm
  rw [div_lt_iff₀ hmQ]
  constructor
  · intro h
    have h2 : ((2 * c : ℤ) : ℚ) < ((m : ℤ) : ℚ) := by push_cast; linarith
    exact_mod_cast h2
  · intro h
    have h2 : ((2 * c : ℤ) : ℚ) < ((m : ℤ) : ℚ) := by exact_mod_cast h
    push_cast at h2
    linarith

/-- For a positive denominator, the utilization comparison against 0.8 is
the integer comparison 5 current < 4 max. -/
theorem div_lt_fourfifths_iff {c m : ℤ} (hm : 0 < m) :
    ((c : ℚ) / (m : ℚ) < 4 / 5) ↔ 5 * c < 4 * m := by
  have hmQ : (0 : ℚ) < (m : ℚ) := by exact_mod_cast hm
  rw [div_lt_iff₀ hmQ]
  constructor
  · intro h
    have h2 : ((5 * c : ℤ) : ℚ) < ((4 * m : ℤ) : ℚ) := by push_cast; linarith
    exact_mod_cast h2
  · intro h
    have h2 : ((5 * c : ℤ) : ℚ) < ((4 * m : ℤ) : ℚ) := by exact_mod_cast h
    push_cast at h2
    linarith

/-- C8: for all integer (current, max), is_express_pickup_eligible is
false when max ≤ 0 or the remaining capacity max − current is below 2,
whatever the load label; with max > 0 and remaining ≥ 2 it is true exactly
when the load label is LOW or MEDIUM; and get_load_label is LOW when
max ≤ 0, and for max > 0 is LOW iff current / max < 0.5 (the integer test
2 current < max), MEDIUM iff 0.5 ≤ current / max < 0.8, else HIGH. -/
theorem C8_express_composition (c m : ℤ) :
    ((m ≤ 0 ∨ m - c < 2) → is_express_pickup_eligible c m = false) ∧
    (0 < m → 2 ≤ m - c →
      (is_express_pickup_eligible c m = true ↔
        (get_load_label c m = LoadLabel.LOW ∨
          get_load_label c m = LoadLabel.MEDIUM))) ∧
    (m ≤ 0 → get_load_label c m = LoadLabel.LOW) ∧
    (0 < m →
      (get_load_label c m = LoadLabel.LOW ↔ 2 * c < m) ∧
      (get_load_label c m = LoadLabel.MEDIUM ↔ m ≤ 2 * c ∧ 5 * c < 4 * m) ∧
      (get_load_label c m = LoadLabel.HIGH ↔ 4 * m ≤ 5 * c)) := by
  refine ⟨?_, ?_, fun h => by simp [get_load_label, h], fun h0 => ?_⟩
  · rintro (h | h)
    · simp [is_express_pickup_eligible, h]
    · by_cases h0 : m ≤ 0
      · simp [is_express_pickup_eligible, h0]
      · simp [is_express_pickup_eligible, h0, MIN_EXPRESS_REMAINING_ORDERS, h]
  · intro h0 h2
    have h0' : ¬ m ≤ 0 := not_le.mpr h0
    have h2' : ¬ (m - c < MIN_EXPRESS_REMAINING_ORDERS) := by
      simp [MIN_EXPRESS_REMAINING_ORDERS]
      omega
    simp [is_express_pickup_eligible, h0', h2']
  · have h0' : ¬ m ≤ 0 := not_le.mpr h0
    have hL := div_lt_half_iff (c := c) h0
    have hM := div_lt_fourfifths_iff (c := c) h0
    have key : get_load_label c m =
        (if 2 * c < m then LoadLabel.LOW
         else if (5 * c < 4 * m) then LoadLabel.MEDIUM else LoadLabel.HIGH) := by
      unfold get_load_label
      simp only [if_neg h0', LOW_LOAD_MAX_UTILIZATION, MEDIUM_LOAD_MAX_UTILIZATION]
      by_cases ha : 2 * c < m
      · rw [if_pos (hL.mpr ha), if_pos ha]
      · rw [if_neg (fun hq => ha (hL.mp hq)), if_neg ha]
        by_cases hb : 5 * c < 4 * m
        · rw [if_pos (hM.mpr hb), if_pos hb]
        · rw [if_neg (fun hq => hb (hM.mp hq)), if_neg hb]
    rw [key]
    refine ⟨?_, ?_, ?_⟩
    all_goals split_ifs
    all_goals simp_all
    all_goals omega

/-- Witness for C8 at (current, max) = (3, 10). -/
theorem C8_express_composition_witness :
    is_express_pickup_eligible 3 10 = true ↔
      (get_load_label 3 10 = LoadLabel.LOW ∨
        get_load_label 3 10 = LoadLabel.MEDIUM) :=
  (C8_express_composition 3 10).2.1 (by decide) (by decide)

end TNT
